import Mathlib

/-!
Shallow embedding of the Simcity.AI simulation core and verification of its
specification.  The embedded code comes from `AgentManager.ts` (agent registry,
vitals decay, decision eligibility), `EventManager.ts` (death, spawn and reward
rules), `ConversationEngine` (turn-taking dialogues), `PersonalityBuilder` and
`SimulationEngine.spawnNewAgent` (births).

Modelling conventions:
* JavaScript numbers are modelled as rationals (`ℚ`); every constant of the
  source (`0.5`, `1.5`, `0.8`, `45`, `0.3`, thresholds, probabilities) appears
  verbatim as a rational.
* Every `Math.random()` draw is an explicit parameter of the embedded function.
* The process-wide `Map<string, Agent>` registry is modelled as a `List Agent`
  in insertion order; `Map.get` is `List.find?` on the id, and an in-place
  mutation of one entry is a `List.map` that rewrites the matching element.
* Fallible external calls (the Gemini oracle) are modelled as `Option`-valued
  inputs: `none` is a failed call (the source catches every oracle error and
  degrades, it never lets one escape).
-/

namespace Simcity

/-- `Agent.physical_state` of `AgentManager.ts`. -/
structure PhysicalState where
  health : ℚ
  hunger : ℚ
  energy : ℚ
  age : ℚ
deriving DecidableEq, Inhabited

/-- `Agent.mental_state` of `AgentManager.ts`. -/
structure MentalState where
  mood : String
  mood_score : ℚ
  current_thought : String
  worries : List String
  desires : List String
  secrets : List String
deriving DecidableEq, Inhabited

/-- The `Agent` record of `AgentManager.ts`, restricted to the fields the
simulation core reads or writes (personality, starting conditions and the
relationship maps are opaque oracle-input context and are omitted). -/
structure Agent where
  id : String
  name : String
  physical_state : PhysicalState
  mental_state : MentalState
  current_location : String
  current_activity : String
  is_alive : Bool
  born_on_day : ℚ
  profession : Option String
deriving DecidableEq, Inhabited

/-- `AgentManager.getLivingAgents`. -/
def getLivingAgents (agents : List Agent) : List Agent :=
  agents.filter (fun a => a.is_alive)

/-- Hunger line of `AgentManager.updatePhysicalNeeds`:
`hunger = Math.min(100, hunger + 0.5)`. -/
def decayHunger (hunger : ℚ) : ℚ :=
  min 100 (hunger + 1/2)

/-- Energy branch of `AgentManager.updatePhysicalNeeds`: awake at night loses
`1.5`, sleeping gains `45` (capped at 100), otherwise loses `0.8` (floored
at 0). -/
def decayEnergy (isNighttime : Bool) (activity : String) (energy : ℚ) : ℚ :=
  if isNighttime = true ∧ activity ≠ "sleeping" then max 0 (energy - 3/2)
  else if activity = "sleeping" then min 100 (energy + 45)
  else max 0 (energy - 4/5)

/-- Health regeneration line: `+0.5` when `hunger < 30 && energy > 60`. -/
def decayHealthRegen (hunger energy health : ℚ) : ℚ :=
  if hunger < 30 ∧ energy > 60 then min 100 (health + 1/2) else health

/-- Critical-hunger health penalty: `-1.5` when `hunger > 90`. -/
def decayHealthHunger (hunger health : ℚ) : ℚ :=
  if hunger > 90 then max 0 (health - 3/2) else health

/-- Low-energy health penalty: `-0.3` when `energy < 10`. -/
def decayHealthEnergy (energy health : ℚ) : ℚ :=
  if energy < 10 then max 0 (health - 3/10) else health

/-- Mood recovery line: `+1` when `hunger < 40 && energy > 50 && health > 60`,
evaluated on the already-updated vitals. -/
def decayMood (hunger energy health mood : ℚ) : ℚ :=
  if hunger < 40 ∧ energy > 50 ∧ health > 60 then min 100 (mood + 1) else mood

/-- The per-agent body of `AgentManager.updatePhysicalNeeds`, applied in source
order: hunger, then energy, then the three sequential health updates (each
reading the vitals already written this pass), then mood, then `age += 1`. -/
def decayAgent (isNighttime : Bool) (a : Agent) : Agent :=
  let hunger2 := decayHunger a.physical_state.hunger
  let energy2 := decayEnergy isNighttime a.current_activity a.physical_state.energy
  let health2 := decayHealthEnergy energy2
    (decayHealthHunger hunger2 (decayHealthRegen hunger2 energy2 a.physical_state.health))
  let mood2 := decayMood hunger2 energy2 health2 a.mental_state.mood_score
  { a with
    physical_state :=
      { health := health2, hunger := hunger2, energy := energy2,
        age := a.physical_state.age + 1 },
    mental_state := { a.mental_state with mood_score := mood2 } }

/-- `AgentManager.updatePhysicalNeeds` over the whole registry: it iterates
`getLivingAgents()` and mutates those agents in place, so dead agents are left
untouched. -/
def updatePhysicalNeeds (isNighttime : Bool) (agents : List Agent) : List Agent :=
  agents.map (fun a => if a.is_alive then decayAgent isNighttime a else a)

/-- The filter body of `AgentManager.getAgentsNeedingDecisions`: skips sleeping,
eating and `in_conversation` agents, and auto-sleeps (mutates) an agent whose
energy is below 10 while excluding it.  Returns the keep flag and the possibly
mutated agent. -/
def needsDecisionStep (a : Agent) : Bool × Agent :=
  if a.current_activity = "sleeping" then (false, a)
  else if a.current_activity = "eating" then (false, a)
  else if a.current_activity = "in_conversation" then (false, a)
  else if a.physical_state.energy < 10 then
    (false, { a with current_activity := "sleeping" })
  else (true, a)

/-- `AgentManager.getAgentsNeedingDecisions`: the returned eligible list
together with the registry after the query's auto-sleep side effect (the query
runs on `getLivingAgents()`, so dead agents are neither returned nor
mutated). -/
def getAgentsNeedingDecisions (agents : List Agent) : List Agent × List Agent :=
  (agents.filter (fun a => a.is_alive && (needsDecisionStep a).1),
   agents.map (fun a => if a.is_alive then (needsDecisionStep a).2 else a))

/-- `AgentManager.markInConversation`: sets the `in_conversation` activity
marker that `getAgentsNeedingDecisions` filters on. -/
def markInConversation (agents : List Agent) (agentId : String) : List Agent :=
  agents.map (fun a =>
    if a.id = agentId then { a with current_activity := "in_conversation" } else a)

/-- One element of the list built by `EventManager.checkDeathConditions`. -/
structure DeathRecord where
  id : String
  name : String
  cause : String
deriving DecidableEq, Inhabited

/-- The loop body of `EventManager.checkDeathConditions` for one agent.
`roll` is the `Math.random()` draw consumed by the old-age branch; the
health branch comes first and involves no draw. -/
def deathCheckAgent (roll : ℚ) (a : Agent) : Option DeathRecord :=
  if a.physical_state.health ≤ 0 then
    some { id := a.id, name := a.name, cause := "health failure" }
  else if a.physical_state.age > 300 ∧ roll < (a.physical_state.age - 300) * (2/1000) then
    some { id := a.id, name := a.name, cause := "old age" }
  else none

/-- `EventManager.checkDeathConditions` over `agentManager.getAgents()`;
`rolls` supplies one random draw per agent position. -/
def checkDeathConditions (rolls : List ℚ) (agents : List Agent) : List DeathRecord :=
  (agents.zip rolls).filterMap (fun p => deathCheckAgent p.2 p.1)

/-- `EventManager.shouldSpawnNewAgent`: hard cap 10 on the registry size,
soft cap 8 with a 5% per-tick roll.  `roll` is the `Math.random()` draw. -/
def shouldSpawnNewAgent (roll : ℚ) (agents : List Agent) : Bool :=
  if agents.length ≥ 10 then false
  else if agents.length < 8 ∧ roll < 5/100 then true
  else false

/-- Reward helper: `health = Math.min(100, health + d)`. -/
def boostHealth (d : ℚ) (a : Agent) : Agent :=
  { a with physical_state :=
      { a.physical_state with health := min 100 (a.physical_state.health + d) } }

/-- Reward helper: `energy = Math.min(100, energy + d)`. -/
def boostEnergy (d : ℚ) (a : Agent) : Agent :=
  { a with physical_state :=
      { a.physical_state with energy := min 100 (a.physical_state.energy + d) } }

/-- Reward helper: `mood_score = Math.min(100, mood_score + d)`. -/
def boostMood (d : ℚ) (a : Agent) : Agent :=
  { a with mental_state :=
      { a.mental_state with mood_score := min 100 (a.mental_state.mood_score + d) } }

/-- Reward helper: `hunger = Math.max(0, hunger - d)` (the farmer bonus). -/
def reduceHunger (d : ℚ) (a : Agent) : Agent :=
  { a with physical_state :=
      { a.physical_state with hunger := max 0 (a.physical_state.hunger - d) } }

/-- The `Math.random()` draws consumed by
`EventManager.evaluateActionForReward`, one per probabilistic category. -/
structure RewardRolls where
  createRoll : ℚ
  talkRoll : ℚ
  healerRoll : ℚ
  farmerRoll : ℚ
  scholarRoll : ℚ
deriving DecidableEq, Inhabited

/-- `EventManager.evaluateActionForReward`: each category tests the acting
agent's action (and for `talk` the target, for `work` the profession) and, when
it fires, maps its clamped delta over every agent of
`agentManager.getAgents()`. -/
def evaluateActionForReward (rolls : RewardRolls) (actor : Agent) (action : String)
    (target : Option Agent) (agents : List Agent) : List Agent :=
  let s1 := if action = "help" ∨ action = "heal" ∨ action = "teach"
            then agents.map (boostHealth 5) else agents
  let s2 := if (action = "create_something" ∨ action = "write") ∧ rolls.createRoll < 2/10
            then s1.map (boostMood 8) else s1
  let s3 := if action = "share" ∨ action = "donate" ∨ action = "give"
            then s2.map (boostEnergy 6) else s2
  let s4 := match target with
    | some t =>
        if action = "talk" ∧ rolls.talkRoll < 3/10
            ∧ actor.mental_state.mood_score > 50 ∧ t.mental_state.mood_score > 50
        then s3.map (boostMood 4) else s3
    | none => s3
  match actor.profession with
  | some p =>
      if action = "work" then
        let w1 := if p = "healer" ∧ rolls.healerRoll < 15/100
                  then s4.map (boostHealth 3) else s4
        let w2 := if p = "farmer" ∧ rolls.farmerRoll < 15/100
                  then w1.map (reduceHunger 5) else w1
        if p = "scholar" ∧ rolls.scholarRoll < 12/100
        then w2.map (boostMood 5) else w2
      else s4
  | none => s4

/-- The JSON shape `getConversationResponse` parses for one dialogue turn
(`should_continue` is returned by the oracle but never read by the engine). -/
structure ConvResponse where
  dialogue : String
  inner_thought : Option String
  should_continue : Bool
deriving DecidableEq, Inhabited

/-- The `ConversationTurn` record of `ConversationEngine`. -/
structure ConversationTurn where
  speaker_id : String
  speaker_name : String
  content : String
  inner_thought : Option String
deriving DecidableEq, Inhabited

/-- `Math.floor(Math.random() * 3) + 3` of `ConversationEngine.runConversation`:
the turn budget drawn once at conversation start. -/
def maxTurnsFromRoll (roll : ℚ) : ℕ :=
  (⌊roll * 3⌋ + 3).toNat

/-- `AgentManager.updateAgent(id, { current_activity })`: rewrite the activity
of the registry entry with the given id. -/
def setActivity (agents : List Agent) (agentId activity : String) : List Agent :=
  agents.map (fun a =>
    if a.id = agentId then { a with current_activity := activity } else a)

/-- Lines 1132–1135 of `ConversationEngine.startConversation`: the registry
while the conversation is Active, both participants marked
`'in conversation'`. -/
def conversationActiveRegistry (agents : List Agent) (initiatorId targetId : String) :
    List Agent :=
  setActivity (setActivity agents initiatorId "in conversation") targetId "in conversation"

/-- The guard of `ConversationEngine.startConversation`: both agents found,
target neither sleeping nor `'in conversation'` nor eating, and both at the
same location. -/
def startConversationChecks (agents : List Agent) (initiatorId targetId : String) : Bool :=
  match agents.find? (fun a => a.id == initiatorId),
        agents.find? (fun a => a.id == targetId) with
  | some initiator, some target =>
      !(target.current_activity == "sleeping"
          || target.current_activity == "in conversation"
          || target.current_activity == "eating")
        && (initiator.current_location == target.current_location)
  | _, _ => false

/-- The turn record pushed by iteration `i` of
`ConversationEngine.runConversation`: the initiator speaks when `i` is even,
the target when `i` is odd. -/
def mkConversationTurn (initiator target : Agent) (i : ℕ) (r : ConvResponse) :
    ConversationTurn :=
  let speaker := if i % 2 = 0 then initiator else target
  { speaker_id := speaker.id, speaker_name := speaker.name,
    content := r.dialogue, inner_thought := r.inner_thought }

/-- The turn loop of `ConversationEngine.runConversation`: a failed oracle
call (`none`) appends no turn and the loop simply continues. -/
def runConversationTurns (oracle : ℕ → Option ConvResponse)
    (initiator target : Agent) (maxTurns : ℕ) : List ConversationTurn :=
  (List.range maxTurns).filterMap (fun i =>
    (oracle i).map (mkConversationTurn initiator target i))

/-- The turn of iteration `i` when its oracle call is known to succeed
(proof-side view of the loop body). -/
def successfulTurn (oracle : ℕ → Option ConvResponse) (initiator target : Agent)
    (i : ℕ) : ConversationTurn :=
  mkConversationTurn initiator target i ((oracle i).getD default)

/-- `ConversationEngine.startConversation`: guard checks, mark both busy, run
the turn loop, then reset both activities to `'at <location>'` (the cleanup
always runs because every oracle error is caught inside
`getConversationResponse`).  Returns the final registry and the transcript. -/
def startConversation (oracle : ℕ → Option ConvResponse) (turnsRoll : ℚ)
    (agents : List Agent) (initiatorId targetId : String) :
    List Agent × List ConversationTurn :=
  match agents.find? (fun a => a.id == initiatorId),
        agents.find? (fun a => a.id == targetId) with
  | some initiator, some target =>
      if target.current_activity = "sleeping" ∨ target.current_activity = "in conversation"
          ∨ target.current_activity = "eating" then (agents, [])
      else if initiator.current_location ≠ target.current_location then (agents, [])
      else
        let busy := conversationActiveRegistry agents initiatorId targetId
        let turns := runConversationTurns oracle initiator target (maxTurnsFromRoll turnsRoll)
        let done := setActivity
          (setActivity busy initiatorId ("at " ++ initiator.current_location))
          targetId ("at " ++ target.current_location)
        (done, turns)
  | _, _ => (agents, [])

/-- The five talent scores of `PersonalityBuilder`. -/
structure Talents where
  social : ℚ
  creative : ℚ
  analytical : ℚ
  physical : ℚ
  emotional_intelligence : ℚ
deriving DecidableEq, Inhabited

/-- The parsed oracle output read by `PersonalityBuilder.generatePersonality`;
each field the builder defaults with `||` is an `Option` (absent JSON field =
`none`). -/
structure GeneratedPersonality where
  name : String
  personality_traits : Option (List String)
  core_desire : Option String
  deepest_fear : Option String
  secret : Option String
  hidden_gift : Option String
  personal_challenge : Option String
  talents : Option Talents
  wealth_class : Option String
  appearance : Option String
  backstory : Option String
deriving DecidableEq, Inhabited

/-- The completed personality record `NewAgentPersonality` of
`PersonalityBuilder`. -/
structure NewAgentPersonality where
  name : String
  age : ℚ
  personality_traits : List String
  core_desire : String
  deepest_fear : String
  secret : String
  hidden_gift : String
  personal_challenge : String
  talents : Talents
  wealth_class : String
  initial_location : String
  appearance : String
  backstory : String
deriving DecidableEq, Inhabited

/-- The random draws consumed by `PersonalityBuilder` (`generateUniqueName`
indexed by attempt, `generateAge`, `generateTraits`, `generateTalents`,
`randomWealthClass`, `chooseInitialLocation`, and the independent draws of the
fallback path). -/
structure GenDraws where
  freshName : ℕ → String
  age : ℚ
  traits : List String
  talents : Talents
  wealth_class : String
  initial_location : String
  fallbackName : String
  fallbackAge : ℚ
  fallbackTraits : List String
  fallbackTalents : Talents
  fallbackWealthClass : String
  fallbackLocation : String
deriving Inhabited

/-- The `while (usedNames.has(finalName) && attempts < 5)` loop of
`PersonalityBuilder.generatePersonality`. -/
def pickUniqueName (used : List String) (freshDraw : ℕ → String)
    (candidate : String) (attempts : ℕ) : String :=
  if h : used.contains candidate ∧ attempts < 5 then
    pickUniqueName used freshDraw (freshDraw attempts) (attempts + 1)
  else candidate
termination_by 5 - attempts
decreasing_by omega

/-- `PersonalityBuilder.generateFallbackPersonality`: the locally synthesized
default personality used when the oracle call throws. -/
def generateFallbackPersonality (draws : GenDraws) : NewAgentPersonality :=
  { name := draws.fallbackName
    age := draws.fallbackAge
    personality_traits := draws.fallbackTraits
    core_desire := "To find meaning in life"
    deepest_fear := "Being alone forever"
    secret := "A past they prefer not to discuss"
    hidden_gift := "An ability they havent discovered yet"
    personal_challenge := "Learning to trust others"
    talents := draws.fallbackTalents
    wealth_class := draws.fallbackWealthClass
    initial_location := draws.fallbackLocation
    appearance := "A face that blends into any crowd"
    backstory := "They arrived in Simcity.AI seeking a fresh start, leaving behind a life they no longer recognize as their own." }

/-- The three ways `PersonalityBuilder.generatePersonality` can observe its
oracle call `generateAgentPersonality`: a truthy generated object, a falsy
(`null`) result, or a thrown error. -/
inductive OracleOutcome (α : Type) where
  | value (g : α)
  | nullish
  | thrown
deriving DecidableEq

/-- `PersonalityBuilder.generatePersonality`: on a falsy oracle result it
returns `null`; on a thrown error the `catch` returns the locally synthesized
fallback; otherwise it completes the generated fields with `||` defaults and a
collision-free name. -/
def generatePersonality (used : List String) (draws : GenDraws)
    (oracle : OracleOutcome GeneratedPersonality) : Option NewAgentPersonality :=
  match oracle with
  | .nullish => none
  | .thrown => some (generateFallbackPersonality draws)
  | .value g =>
      some
        { name := pickUniqueName used draws.freshName g.name 0
          age := draws.age
          personality_traits := g.personality_traits.getD draws.traits
          core_desire := g.core_desire.getD "To find purpose"
          deepest_fear := g.deepest_fear.getD "Being forgotten"
          secret := g.secret.getD "A mystery from their past"
          hidden_gift := g.hidden_gift.getD "An untapped talent"
          personal_challenge := g.personal_challenge.getD "Finding their place"
          talents := g.talents.getD draws.talents
          wealth_class := g.wealth_class.getD draws.wealth_class
          initial_location := draws.initial_location
          appearance := g.appearance.getD "An unremarkable appearance"
          backstory := g.backstory.getD "They arrived in town seeking a fresh start." }

/-- `AgentManager.createAgent`: the freshly registered agent built from a
personality (health 100, hunger 20, energy 100, mood `curious` at 60, activity
`'arriving in town'`). -/
def createAgentFromPersonality (newId : String) (currentDay : ℚ)
    (p : NewAgentPersonality) : Agent :=
  { id := newId
    name := p.name
    physical_state := { health := 100, hunger := 20, energy := 100, age := p.age }
    mental_state :=
      { mood := "curious", mood_score := 60, current_thought := "A new beginning..."
        worries := [p.deepest_fear], desires := [p.core_desire], secrets := [p.secret] }
    current_location := p.initial_location
    current_activity := "arriving in town"
    is_alive := true
    born_on_day := currentDay
    profession := none }

/-- `SimulationEngine.spawnNewAgent` after the personality generator has
answered: on `null` it logs and returns without registering anyone; otherwise
`agentManager.createAgent` adds the new agent to the registry. -/
def spawnNewAgent (newId : String) (currentDay : ℚ) (agents : List Agent)
    (genResult : Option NewAgentPersonality) : List Agent :=
  match genResult with
  | none => agents
  | some p => agents ++ [createAgentFromPersonality newId currentDay p]

/-- The data-model invariant of the spec: vitals within `[0,100]`, mood score
within its signed bound `[-100,100]`. -/
def InRangeAgent (a : Agent) : Prop :=
  (0 ≤ a.physical_state.health ∧ a.physical_state.health ≤ 100) ∧
  (0 ≤ a.physical_state.hunger ∧ a.physical_state.hunger ≤ 100) ∧
  (0 ≤ a.physical_state.energy ∧ a.physical_state.energy ≤ 100) ∧
  (-100 ≤ a.mental_state.mood_score ∧ a.mental_state.mood_score ≤ 100)

instance : DecidablePred InRangeAgent := fun a => by
  unfold InRangeAgent; infer_instance

/-- A healthy idle agent used as concrete input for witnesses. -/
def baseAgent : Agent :=
  { id := "a"
    name := "Alice"
    physical_state := { health := 100, hunger := 30, energy := 80, age := 10 }
    mental_state :=
      { mood := "curious", mood_score := 20, current_thought := "A new day begins..."
        worries := [], desires := [], secrets := [] }
    current_location := "cafe"
    current_activity := "idle"
    is_alive := true
    born_on_day := 1
    profession := none }

/-- Co-located conversation partner for `baseAgent`. -/
def partnerAgent : Agent :=
  { baseAgent with id := "b", name := "Bob" }

/-- The decay scenario's input: hunger 95, energy 5, health 50, not sleeping. -/
def scenarioAgent : Agent :=
  { baseAgent with physical_state := { health := 50, hunger := 95, energy := 5, age := 10 } }

/-- An out-of-range input: hunger already below 0 before the decay pass. -/
def outOfRangeAgent : Agent :=
  { baseAgent with physical_state := { health := 50, hunger := -10, energy := 50, age := 0 } }

/-- A live agent that is eating with critically low energy. -/
def eatingAgent : Agent :=
  { baseAgent with current_activity := "eating"
                   physical_state := { health := 50, hunger := 50, energy := 5, age := 0 } }

/-- A dead agent still present in the registry map. -/
def deadAgent : Agent :=
  { baseAgent with id := "d", name := "Dora", is_alive := false }

/-- An oracle whose every call succeeds with a fixed line. -/
def okOracle : ℕ → Option ConvResponse :=
  fun _ => some { dialogue := "hello", inner_thought := none, should_continue := true }

/-- An oracle whose every call fails. -/
def failingOracle : ℕ → Option ConvResponse :=
  fun _ => none

/-- A registry at the hard population cap. -/
def tenAgents : List Agent :=
  List.replicate 10 baseAgent

/-- Concrete random draws for the personality builder. -/
def sampleDraws : GenDraws :=
  { freshName := fun _ => "Alex Chen"
    age := 30
    traits := ["curious", "stubborn"]
    talents := { social := 50, creative := 50, analytical := 50
                 physical := 50, emotional_intelligence := 50 }
    wealth_class := "middle_class"
    initial_location := "Town Square"
    fallbackName := "Jordan Kim"
    fallbackAge := 28
    fallbackTraits := ["cautious"]
    fallbackTalents := { social := 40, creative := 40, analytical := 40
                         physical := 40, emotional_intelligence := 40 }
    fallbackWealthClass := "working_class"
    fallbackLocation := "Cozy Cafe" }

/-- A live idle agent with critically low energy. -/
def lowEnergyAgent : Agent :=
  { baseAgent with physical_state := { health := 50, hunger := 50, energy := 5, age := 0 } }

/-- Zero rolls: every probabilistic reward gate passes. -/
def zeroRolls : RewardRolls :=
  { createRoll := 0, talkRoll := 0, healerRoll := 0, farmerRoll := 0, scholarRoll := 0 }

/-- A cheerful acting agent (mood above 50) with the healer profession. -/
def happyHealer : Agent :=
  { baseAgent with id := "h", name := "Hana"
                   mental_state := { baseAgent.mental_state with mood_score := 60 }
                   profession := some "healer" }

/-! ## Helper lemmas -/

lemma getD_map_of_lt {α β : Type} [Inhabited α] [Inhabited β] (f : α → β) (l : List α)
    (i : ℕ) (h : i < l.length) :
    (l.map f).getD i default = f (l.getD i default) := by
  induction l generalizing i with
  | nil => cases h
  | cons x xs ih =>
    cases i with
    | zero => rfl
    | succ n => exact ih n (by simpa using h)

lemma filterMap_eq_map_of_forall {α β : Type} (f : α → Option β) (g : α → β) :
    ∀ (l : List α), (∀ x ∈ l, f x = some (g x)) → l.filterMap f = l.map g := by
  intro l
  induction l with
  | nil => intro _; rfl
  | cons a t ih =>
    intro h
    rw [List.filterMap_cons, h a (List.mem_cons_self a t), List.map_cons,
      ih (fun x hx => h x (List.mem_cons_of_mem _ hx))]

lemma needsDecisionStep_autosleep (a : Agent) (henergy : a.physical_state.energy < 10)
    (heat : a.current_activity ≠ "eating") (hconv : a.current_activity ≠ "in_conversation") :
    ((needsDecisionStep a).2).current_activity = "sleeping" := by
  unfold needsDecisionStep
  by_cases hs : a.current_activity = "sleeping"
  · simp [hs]
  · rw [if_neg hs, if_neg heat, if_neg hconv, if_pos henergy]

lemma decayHunger_bounds (h : ℚ) (h0 : 0 ≤ h) (h1 : h ≤ 100) :
    0 ≤ decayHunger h ∧ decayHunger h ≤ 100 := by
  unfold decayHunger
  exact ⟨le_min (by norm_num) (by linarith), min_le_left _ _⟩

lemma decayEnergy_bounds (n : Bool) (act : String) (e : ℚ) (h0 : 0 ≤ e) (h1 : e ≤ 100) :
    0 ≤ decayEnergy n act e ∧ decayEnergy n act e ≤ 100 := by
  unfold decayEnergy
  split_ifs with hb1 hb2
  · exact ⟨le_max_left _ _, max_le (by norm_num) (by linarith)⟩
  · exact ⟨le_min (by norm_num) (by linarith), min_le_left _ _⟩
  · exact ⟨le_max_left _ _, max_le (by norm_num) (by linarith)⟩

lemma decayHealthRegen_bounds (hu en h : ℚ) (h0 : 0 ≤ h) (h1 : h ≤ 100) :
    0 ≤ decayHealthRegen hu en h ∧ decayHealthRegen hu en h ≤ 100 := by
  unfold decayHealthRegen
  split_ifs with hb
  · exact ⟨le_min (by norm_num) (by linarith), min_le_left _ _⟩
  · exact ⟨h0, h1⟩

lemma decayHealthHunger_bounds (hu h : ℚ) (h0 : 0 ≤ h) (h1 : h ≤ 100) :
    0 ≤ decayHealthHunger hu h ∧ decayHealthHunger hu h ≤ 100 := by
  unfold decayHealthHunger
  split_ifs with hb
  · exact ⟨le_max_left _ _, max_le (by norm_num) (by linarith)⟩
  · exact ⟨h0, h1⟩

lemma decayHealthEnergy_bounds (en h : ℚ) (h0 : 0 ≤ h) (h1 : h ≤ 100) :
    0 ≤ decayHealthEnergy en h ∧ decayHealthEnergy en h ≤ 100 := by
  unfold decayHealthEnergy
  split_ifs with hb
  · exact ⟨le_max_left _ _, max_le (by norm_num) (by linarith)⟩
  · exact ⟨h0, h1⟩

lemma decayMood_bounds (hu en he m : ℚ) (h0 : -100 ≤ m) (h1 : m ≤ 100) :
    -100 ≤ decayMood hu en he m ∧ decayMood hu en he m ≤ 100 := by
  unfold decayMood
  split_ifs with hb
  · exact ⟨le_min (by norm_num) (by linarith), min_le_left _ _⟩
  · exact ⟨h0, h1⟩

lemma decayAgent_inRange (n : Bool) (a : Agent) (h : InRangeAgent a) :
    InRangeAgent (decayAgent n a) := by
  obtain ⟨⟨hh0, hh1⟩, ⟨hg0, hg1⟩, ⟨he0, he1⟩, hm0, hm1⟩ := h
  have Hg := decayHunger_bounds a.physical_state.hunger hg0 hg1
  have He := decayEnergy_bounds n a.current_activity a.physical_state.energy he0 he1
  have H1 := decayHealthRegen_bounds (decayHunger a.physical_state.hunger)
    (decayEnergy n a.current_activity a.physical_state.energy) a.physical_state.health hh0 hh1
  have H2 := decayHealthHunger_bounds (decayHunger a.physical_state.hunger) _ H1.1 H1.2
  have H3 := decayHealthEnergy_bounds
    (decayEnergy n a.current_activity a.physical_state.energy) _ H2.1 H2.2
  have Hm := decayMood_bounds (decayHunger a.physical_state.hunger)
    (decayEnergy n a.current_activity a.physical_state.energy)
    (decayHealthEnergy (decayEnergy n a.current_activity a.physical_state.energy)
      (decayHealthHunger (decayHunger a.physical_state.hunger)
        (decayHealthRegen (decayHunger a.physical_state.hunger)
          (decayEnergy n a.current_activity a.physical_state.energy) a.physical_state.health)))
    a.mental_state.mood_score hm0 hm1
  exact ⟨⟨H3.1, H3.2⟩, ⟨Hg.1, Hg.2⟩, ⟨He.1, He.2⟩, Hm.1, Hm.2⟩

/-! ## Claims -/

/-- Claim C2, counterexample.  In the spec scenario (hunger 95, energy 5,
health 50, not sleeping, nighttime) the decay pass leaves hunger at `95.5`,
not at the claimed clamped value 100: the hunger delta is `0.5`, far too small
to reach the cap from 95. -/
theorem decay_scenario_counterexample :
    (decayAgent true scenarioAgent).physical_state.hunger = 191/2 ∧
    ¬ (decayAgent true scenarioAgent).physical_state.hunger = 100 := by
  norm_num +decide [decayAgent, scenarioAgent, baseAgent, decayHunger]

/-- Claim C2, amended.  For an agent entering one decay pass with hunger 95,
energy 5, health 50, activity not `sleeping`, at nighttime: hunger becomes
`95.5` (the `+0.5` delta, still below the 100 cap), energy drops to `3.5`
(strictly below 5, the awake-at-night branch), and health drops to `48.2`,
strictly below 50 with both the `hunger > 90` penalty (`-1.5`) and the
`energy < 10` penalty (`-0.3`) applied. -/
theorem decay_scenario_amended (a : Agent)
    (hh : a.physical_state.hunger = 95)
    (he : a.physical_state.energy = 5)
    (hl : a.physical_state.health = 50)
    (hs : a.current_activity ≠ "sleeping") :
    (decayAgent true a).physical_state.hunger = 191/2 ∧
    (decayAgent true a).physical_state.energy = 7/2 ∧
    (decayAgent true a).physical_state.energy < 5 ∧
    (decayAgent true a).physical_state.health = 50 - 3/2 - 3/10 ∧
    (decayAgent true a).physical_state.health < 50 := by
  norm_num [decayAgent, decayHunger, decayEnergy, decayHealthRegen, decayHealthHunger,
    decayHealthEnergy, hh, he, hl, hs]

/-- Witness for C2's amended theorem at the concrete scenario agent. -/
theorem decay_scenario_amended_witness :
    (decayAgent true scenarioAgent).physical_state.hunger = 191/2 ∧
    (decayAgent true scenarioAgent).physical_state.energy < 5 ∧
    (decayAgent true scenarioAgent).physical_state.health < 50 := by
  have h := decay_scenario_amended scenarioAgent rfl rfl rfl (by decide)
  exact ⟨h.1, h.2.2.1, h.2.2.2.2⟩

/-- Claim C3, counterexample.  The decay pass does not repair out-of-range
inputs: an agent entering with hunger `-10` leaves the pass with hunger
`-9.5`, still outside `[0,100]` (the hunger update only clamps from above). -/
theorem decay_bounds_counterexample :
    ((updatePhysicalNeeds false [outOfRangeAgent]).getD 0 default).physical_state.hunger
      = -19/2 ∧
    ¬ (0 ≤ ((updatePhysicalNeeds false [outOfRangeAgent]).getD 0 default).physical_state.hunger) := by
  norm_num +decide [updatePhysicalNeeds, decayAgent, outOfRangeAgent, baseAgent, decayHunger,
    decayEnergy, decayHealthRegen, decayHealthHunger, decayHealthEnergy, decayMood]

/-- Claim C3, amended.  For an agent whose vitals start inside `[0,100]` and
whose mood score starts inside `[-100,100]`, one decay pass keeps every vital
inside `[0,100]` and the mood score inside `[-100,100]` (for out-of-range
inputs this fails, see the counterexample). -/
theorem decay_preserves_bounds (isNight : Bool) (agents : List Agent) (i : ℕ)
    (hi : i < agents.length) (h : InRangeAgent (agents.getD i default)) :
    InRangeAgent ((updatePhysicalNeeds isNight agents).getD i default) := by
  unfold updatePhysicalNeeds
  rw [getD_map_of_lt _ agents i hi]
  cases hb : (agents.getD i default).is_alive with
  | false => simpa [hb] using h
  | true => simpa [hb] using decayAgent_inRange isNight _ h

/-- Witness for C3's amended theorem at a healthy concrete agent. -/
theorem decay_preserves_bounds_witness :
    InRangeAgent ((updatePhysicalNeeds false [baseAgent]).getD 0 default) :=
  decay_preserves_bounds false [baseAgent] 0 (by decide)
    (by norm_num [InRangeAgent, baseAgent])

/-- Claim C10.  The per-tick decay pass leaves every agent whose `is_alive`
flag is `false` completely unchanged: `updatePhysicalNeeds` iterates
`getLivingAgents()`, so a dead registry entry is not touched at all. -/
theorem decay_skips_dead_agents (isNight : Bool) (agents : List Agent) (i : ℕ)
    (hi : i < agents.length) (hdead : (agents.getD i default).is_alive = false) :
    (updatePhysicalNeeds isNight agents).getD i default = agents.getD i default := by
  unfold updatePhysicalNeeds
  rw [getD_map_of_lt _ agents i hi, hdead]
  simp

/-- Witness for C10 at a concrete dead agent. -/
theorem decay_skips_dead_agents_witness :
    (updatePhysicalNeeds true [deadAgent]).getD 0 default = [deadAgent].getD 0 default :=
  decay_skips_dead_agents true [deadAgent] 0 (by decide) rfl

/-- Claim C4, counterexample.  A live agent that is `eating` with energy 5 is
excluded from the eligible list, but the call returns with its activity still
`eating`, not `sleeping`: the eating check precedes the auto-sleep branch, so
the auto-sleep mutation never runs for it. -/
theorem eligible_query_counterexample :
    eatingAgent.is_alive = true ∧
    eatingAgent.physical_state.energy < 10 ∧
    (getAgentsNeedingDecisions [eatingAgent]).1 = [] ∧
    ((getAgentsNeedingDecisions [eatingAgent]).2.getD 0 default).current_activity = "eating" ∧
    ¬ ((getAgentsNeedingDecisions [eatingAgent]).2.getD 0 default).current_activity
        = "sleeping" := by
  norm_num +decide [getAgentsNeedingDecisions, needsDecisionStep, eatingAgent, baseAgent]

/-- Claim C4, amended.  The eligible-for-decision query never returns an agent
whose activity is `sleeping`, `eating` or `in_conversation`; every live agent
whose energy is below 10 on entry is excluded from the result; and such an
agent ends the call with activity `sleeping` provided its activity on entry was
not `eating` or `in_conversation` (those two checks precede the auto-sleep
branch and leave the activity untouched). -/
theorem eligible_query_amended (agents : List Agent) :
    (∀ b ∈ (getAgentsNeedingDecisions agents).1,
        b.is_alive = true ∧ b.current_activity ≠ "sleeping" ∧
        b.current_activity ≠ "eating" ∧ b.current_activity ≠ "in_conversation") ∧
    (∀ a : Agent, a.is_alive = true → a.physical_state.energy < 10 →
        a ∉ (getAgentsNeedingDecisions agents).1) ∧
    (∀ i, i < agents.length → (agents.getD i default).is_alive = true →
        (agents.getD i default).physical_state.energy < 10 →
        (agents.getD i default).current_activity ≠ "eating" →
        (agents.getD i default).current_activity ≠ "in_conversation" →
        ((getAgentsNeedingDecisions agents).2.getD i default).current_activity = "sleeping") := by
  refine ⟨?_, ?_, ?_⟩
  · intro b hb
    have hmem := List.mem_filter.mp hb
    have hpred := hmem.2
    simp only [Bool.and_eq_true] at hpred
    refine ⟨hpred.1, ?_, ?_, ?_⟩ <;>
      · intro hact
        have := hpred.2
        unfold needsDecisionStep at this
        simp [hact] at this
  · intro a halive henergy hmem
    have hpred := (List.mem_filter.mp hmem).2
    simp only [Bool.and_eq_true] at hpred
    have := hpred.2
    unfold needsDecisionStep at this
    split_ifs at this <;> simp_all
  · intro i hi halive henergy heat hconv
    show ((agents.map fun a : Agent => if a.is_alive then (needsDecisionStep a).2 else a).getD i
        default).current_activity = "sleeping"
    rw [getD_map_of_lt _ agents i hi, if_pos halive]
    exact needsDecisionStep_autosleep _ henergy heat hconv

/-- Witness for C4's amended theorem: a live idle agent with energy 5 leaves
the query with activity `sleeping`. -/
theorem eligible_query_amended_witness :
    ((getAgentsNeedingDecisions [lowEnergyAgent]).2.getD 0 default).current_activity
      = "sleeping" :=
  (eligible_query_amended [lowEnergyAgent]).2.2 0 (by decide) rfl (by norm_num [lowEnergyAgent])
    (by decide) (by decide)

/-- Claim C1: a genuine divergence between the conversation orchestrator and
the registry.  `ConversationEngine.startConversation` marks both participants
with the string `"in conversation"` (with a space), while
`AgentManager.getAgentsNeedingDecisions` only excludes the exact string
`"in_conversation"` (with an underscore, the marker `markInConversation`
writes).  Consequently two co-located, non-busy agents whose conversation has
started (guard passes, both marked busy) are BOTH still returned by the
eligible-for-decision query; had the registry's own `markInConversation` been
used instead, both would have been excluded. -/
theorem conversation_busy_marker_mismatch :
    startConversationChecks [baseAgent, partnerAgent] "a" "b" = true ∧
    (conversationActiveRegistry [baseAgent, partnerAgent] "a" "b").map
      (fun a => a.current_activity) = ["in conversation", "in conversation"] ∧
    (getAgentsNeedingDecisions
        (conversationActiveRegistry [baseAgent, partnerAgent] "a" "b")).1.map (fun a => a.id)
      = ["a", "b"] ∧
    (getAgentsNeedingDecisions
        (markInConversation (markInConversation [baseAgent, partnerAgent] "a") "b")).1
      = [] := by
  norm_num +decide [startConversationChecks, conversationActiveRegistry, setActivity,
    getAgentsNeedingDecisions, needsDecisionStep, markInConversation, baseAgent, partnerAgent]

/-- Claim C6.  For every agent evaluated by the death-condition check and for
every random draw, a death record with cause `health failure` is produced
exactly when the agent's health is `≤ 0`: the health branch precedes the
old-age branch, consumes no randomness (the equivalence is quantified over
every draw), and the old-age branch can only ever produce the cause
`old age`. -/
theorem death_by_health_iff (roll : ℚ) (a : Agent) :
    deathCheckAgent roll a = some { id := a.id, name := a.name, cause := "health failure" }
      ↔ a.physical_state.health ≤ 0 := by
  unfold deathCheckAgent
  split_ifs with h1 h2
  · simp [h1]
  · simp only [Option.some.injEq, DeathRecord.mk.injEq]
    constructor
    · rintro ⟨-, -, hc⟩
      exact absurd hc (by decide)
    · intro hle
      exact absurd hle h1
  · simp only [reduceCtorEq, false_iff]
    exact h1

/-- Claim C7.  The spawn check returns true only below the hard cap of 10
registry entries; with 10 or more it returns false for every draw; and it
signals a spawn exactly when the population is below the soft cap of 8 and the
5% roll succeeds. -/
theorem spawn_caps (roll : ℚ) (agents : List Agent) :
    (shouldSpawnNewAgent roll agents = true → agents.length < 10) ∧
    (10 ≤ agents.length → shouldSpawnNewAgent roll agents = false) ∧
    (shouldSpawnNewAgent roll agents = true ↔ agents.length < 8 ∧ roll < 5/100) := by
  unfold shouldSpawnNewAgent
  split_ifs with h1 h2
  · refine ⟨fun h => by simp at h, fun _ => rfl, ?_⟩
    simp only [reduceCtorEq, false_iff]
    intro hcontra
    omega
  · exact ⟨fun _ => by omega, fun h => absurd h (by omega), by simp [h2]⟩
  · refine ⟨fun h => by simp at h, fun _ => rfl, ?_⟩
    simp only [reduceCtorEq, false_iff]
    exact h2

/-- Witness for C7 at a registry holding exactly 10 live agents and a
0-valued roll (a roll that every probability gate would pass). -/
theorem spawn_caps_witness :
    shouldSpawnNewAgent 0 tenAgents = false :=
  (spawn_caps 0 tenAgents).2.1 (by decide)

/-- Claim C8, counterexample.  When the personality generator returns `null`,
`SimulationEngine.spawnNewAgent` logs and returns: the registry is unchanged
and no agent is registered, contradicting the claim that the core falls back
to a default personality and still registers the birth. -/
theorem spawn_on_null_counterexample :
    generatePersonality [] sampleDraws OracleOutcome.nullish = none ∧
    spawnNewAgent "new" 1 [baseAgent]
      (generatePersonality [] sampleDraws OracleOutcome.nullish) = [baseAgent] ∧
    ¬ ((spawnNewAgent "new" 1 [baseAgent]
        (generatePersonality [] sampleDraws OracleOutcome.nullish)).length = 2) :=
  ⟨rfl, rfl, by decide⟩

/-- Claim C8, amended.  On a `null` return from the personality generator the
core skips the birth entirely (registry unchanged).  The locally synthesized
default personality exists, but lives inside the generator's `catch`: only
when the oracle call throws does the generator return the fallback, and then
the core does register a new agent; likewise any truthy generated personality
yields a registration. -/
theorem spawn_fallback_amended (newId : String) (day : ℚ) (used : List String)
    (draws : GenDraws) (agents : List Agent) :
    spawnNewAgent newId day agents (generatePersonality used draws OracleOutcome.nullish)
      = agents ∧
    spawnNewAgent newId day agents (generatePersonality used draws OracleOutcome.thrown)
      = agents ++ [createAgentFromPersonality newId day (generateFallbackPersonality draws)] ∧
    ∀ g : GeneratedPersonality,
      (spawnNewAgent newId day agents
        (generatePersonality used draws (OracleOutcome.value g))).length
        = agents.length + 1 := by
  refine ⟨rfl, rfl, fun g => ?_⟩
  simp [spawnNewAgent, generatePersonality]

/-- Claim C9.  Whenever a reward rule triggers for a qualifying action, the
targeted field of every living agent becomes exactly the clamped sum of its
old value and the configured delta: `+5` health for help/heal/teach, `+8` mood
for create/write (20% gate), `+6` energy for share/donate/give, `+4` mood for
a positive mutual `talk` (30% gate, both moods above 50), and for `work` the
profession bonuses `+3` health (healer, 15%), `-5` hunger (farmer, 15%),
`+5` mood (scholar, 12%).  The code applies the delta to every registry entry,
so in particular to every living agent. -/
theorem reward_rules_apply_delta (rolls : RewardRolls) (actor : Agent)
    (target : Option Agent) (agents : List Agent) (i : ℕ) (hi : i < agents.length)
    (halive : (agents.getD i default).is_alive = true) :
    (∀ action, (action = "help" ∨ action = "heal" ∨ action = "teach") →
      ((evaluateActionForReward rolls actor action target agents).getD i
          default).physical_state.health
        = min 100 ((agents.getD i default).physical_state.health + 5)) ∧
    (∀ action, (action = "create_something" ∨ action = "write") →
      rolls.createRoll < 2/10 →
      ((evaluateActionForReward rolls actor action target agents).getD i
          default).mental_state.mood_score
        = min 100 ((agents.getD i default).mental_state.mood_score + 8)) ∧
    (∀ action, (action = "share" ∨ action = "donate" ∨ action = "give") →
      ((evaluateActionForReward rolls actor action target agents).getD i
          default).physical_state.energy
        = min 100 ((agents.getD i default).physical_state.energy + 6)) ∧
    (∀ t : Agent, target = some t → rolls.talkRoll < 3/10 →
      actor.mental_state.mood_score > 50 → t.mental_state.mood_score > 50 →
      ((evaluateActionForReward rolls actor "talk" target agents).getD i
          default).mental_state.mood_score
        = min 100 ((agents.getD i default).mental_state.mood_score + 4)) ∧
    (actor.profession = some "healer" → rolls.healerRoll < 15/100 →
      ((evaluateActionForReward rolls actor "work" target agents).getD i
          default).physical_state.health
        = min 100 ((agents.getD i default).physical_state.health + 3)) ∧
    (actor.profession = some "farmer" → rolls.farmerRoll < 15/100 →
      ((evaluateActionForReward rolls actor "work" target agents).getD i
          default).physical_state.hunger
        = max 0 ((agents.getD i default).physical_state.hunger - 5)) ∧
    (actor.profession = some "scholar" → rolls.scholarRoll < 12/100 →
      ((evaluateActionForReward rolls actor "work" target agents).getD i
          default).mental_state.mood_score
        = min 100 ((agents.getD i default).mental_state.mood_score + 5)) := by
  refine ⟨?_, ?_, ?_, ?_, ?_, ?_, ?_⟩
  · intro action hac
    obtain rfl | rfl | rfl := hac
    all_goals unfold evaluateActionForReward
    all_goals rcases target with _ | t
    all_goals rcases hp : actor.profession with _ | p
    all_goals simp +decide [hp, List.getElem?_eq_getElem hi, boostHealth, boostEnergy,
      boostMood, reduceHunger]
  · intro action hac hroll
    obtain rfl | rfl := hac
    all_goals unfold evaluateActionForReward
    all_goals rcases target with _ | t
    all_goals rcases hp : actor.profession with _ | p
    all_goals simp +decide [hp, hroll, List.getElem?_eq_getElem hi, boostHealth,
      boostEnergy, boostMood, reduceHunger]
  · intro action hac
    obtain rfl | rfl | rfl := hac
    all_goals unfold evaluateActionForReward
    all_goals rcases target with _ | t
    all_goals rcases hp : actor.profession with _ | p
    all_goals simp +decide [hp, List.getElem?_eq_getElem hi, boostHealth, boostEnergy,
      boostMood, reduceHunger]
  · rintro t rfl hroll hm1 hm2
    unfold evaluateActionForReward
    rcases hp : actor.profession with _ | p
    all_goals simp +decide [hp, hroll, hm1, hm2, List.getElem?_eq_getElem hi, boostHealth,
      boostEnergy, boostMood, reduceHunger]
  · intro hp hroll
    unfold evaluateActionForReward
    rcases target with _ | t
    all_goals simp +decide [hp, hroll, List.getElem?_eq_getElem hi, boostHealth,
      boostEnergy, boostMood, reduceHunger]
  · intro hp hroll
    unfold evaluateActionForReward
    rcases target with _ | t
    all_goals simp +decide [hp, hroll, List.getElem?_eq_getElem hi, boostHealth,
      boostEnergy, boostMood, reduceHunger]
  · intro hp hroll
    unfold evaluateActionForReward
    rcases target with _ | t
    all_goals simp +decide [hp, hroll, List.getElem?_eq_getElem hi, boostHealth,
      boostEnergy, boostMood, reduceHunger]

/-- Witness for C9 at a concrete registry: the help action adds 5 clamped
health to the (living) sole registry agent. -/
theorem reward_rules_apply_delta_witness :
    ((evaluateActionForReward zeroRolls happyHealer "help" none [baseAgent]).getD 0
        default).physical_state.health
      = min 100 (([baseAgent].getD 0 default).physical_state.health + 5) :=
  (reward_rules_apply_delta zeroRolls happyHealer none [baseAgent] 0 (by decide) rfl).1
    "help" (Or.inl rfl)

lemma maxTurnsFromRoll_ge_three (roll : ℚ) (h : 0 ≤ roll) : 3 ≤ maxTurnsFromRoll roll := by
  unfold maxTurnsFromRoll
  have h3 : (0:ℤ) ≤ ⌊roll * 3⌋ := Int.floor_nonneg.mpr (by positivity)
  omega

lemma maxTurnsFromRoll_le_five (roll : ℚ) (h : roll < 1) : maxTurnsFromRoll roll ≤ 5 := by
  unfold maxTurnsFromRoll
  have h3 : ⌊roll * 3⌋ < 3 := by
    apply Int.floor_lt.mpr
    push_cast
    linarith
  omega

lemma setActivity_mem {agents : List Agent} {agentId activity : String} {b : Agent}
    (hb : b ∈ setActivity agents agentId activity) :
    ∃ a ∈ agents,
      b = if a.id = agentId then { a with current_activity := activity } else a := by
  unfold setActivity at hb
  obtain ⟨a, ha, rfl⟩ := List.mem_map.mp hb
  exact ⟨a, ha, rfl⟩

lemma setActivity_pair_activity {l : List Agent} {iId tId atI atT : String} {b : Agent}
    (hb : b ∈ setActivity (setActivity l iId atI) tId atT) :
    (b.id = tId → b.current_activity = atT) ∧
    (b.id = iId → b.id ≠ tId → b.current_activity = atI) := by
  obtain ⟨d, hd, rfl⟩ := setActivity_mem hb
  obtain ⟨c, hc, rfl⟩ := setActivity_mem hd
  by_cases h2 : ((if c.id = iId then { c with current_activity := atI } else c) : Agent).id
      = tId
  · rw [if_pos h2]
    constructor
    · intro _; rfl
    · intro _ hbne
      exact absurd h2 hbne
  · rw [if_neg h2]
    constructor
    · intro hbid
      exact absurd hbid h2
    · intro hbi _
      by_cases h3 : c.id = iId
      · rw [if_pos h3]
      · rw [if_neg h3] at hbi ⊢
        exact absurd hbi h3

/-- Claim C5, counterexample.  With an oracle that fails on every call, a
conversation between two co-located free agents appends zero turns — not the
claimed 3 to 5 — because a failed call appends nothing and the loop continues;
the activity reset to `at cafe` still happens for both. -/
theorem conversation_turns_counterexample :
    startConversationChecks [baseAgent, partnerAgent] "a" "b" = true ∧
    (startConversation failingOracle 0 [baseAgent, partnerAgent] "a" "b").2.length = 0 ∧
    ¬ (3 ≤ (startConversation failingOracle 0 [baseAgent, partnerAgent] "a" "b").2.length) ∧
    (startConversation failingOracle 0 [baseAgent, partnerAgent] "a" "b").1.map
      (fun a => a.current_activity) = ["at cafe", "at cafe"] := by
  norm_num +decide [startConversation, startConversationChecks, conversationActiveRegistry,
    setActivity, runConversationTurns, maxTurnsFromRoll, failingOracle, baseAgent,
    partnerAgent]

/-- Claim C5, amended.  For a conversation whose start guard passes: the
transcript never exceeds 5 turns; when every oracle call succeeds it holds
between 3 and 5 turns (the budget drawn from the 0–1 roll) with the turn at
index `j` spoken by the initiator exactly when `j` is even (strict alternation
starting with the initiator); and — regardless of oracle failures, which only
skip turns — on completion both participants' activity is reset to the
non-busy `at <location>` label. -/
theorem conversation_amended (oracle : ℕ → Option ConvResponse) (roll : ℚ)
    (agents : List Agent) (initiatorId targetId : String) (initiator target : Agent)
    (hfi : agents.find? (fun a => a.id == initiatorId) = some initiator)
    (hft : agents.find? (fun a => a.id == targetId) = some target)
    (hbusy : ¬ (target.current_activity = "sleeping" ∨
        target.current_activity = "in conversation" ∨
        target.current_activity = "eating"))
    (hloc : initiator.current_location = target.current_location)
    (h0 : 0 ≤ roll) (h1 : roll < 1) :
    (startConversation oracle roll agents initiatorId targetId).2.length ≤ 5 ∧
    ((∀ i, i < maxTurnsFromRoll roll → (oracle i).isSome = true) →
      3 ≤ (startConversation oracle roll agents initiatorId targetId).2.length ∧
      (∀ j, j < (startConversation oracle roll agents initiatorId targetId).2.length →
        ((startConversation oracle roll agents initiatorId targetId).2.getD j
            default).speaker_id
          = if j % 2 = 0 then initiator.id else target.id)) ∧
    (∀ b ∈ (startConversation oracle roll agents initiatorId targetId).1,
      (b.id = targetId → b.current_activity = "at " ++ target.current_location) ∧
      (b.id = initiatorId → b.id ≠ targetId →
        b.current_activity = "at " ++ initiator.current_location)) := by
  have hP : startConversation oracle roll agents initiatorId targetId
      = (setActivity
          (setActivity (conversationActiveRegistry agents initiatorId targetId)
            initiatorId ("at " ++ initiator.current_location))
          targetId ("at " ++ target.current_location),
         runConversationTurns oracle initiator target (maxTurnsFromRoll roll)) := by
    unfold startConversation
    rw [hfi, hft]
    simp only [if_neg hbusy, if_neg (not_not_intro hloc)]
  rw [hP]
  refine ⟨?_, ?_, ?_⟩
  · show (runConversationTurns oracle initiator target (maxTurnsFromRoll roll)).length ≤ 5
    unfold runConversationTurns
    calc (List.filterMap _ (List.range (maxTurnsFromRoll roll))).length
        ≤ (List.range (maxTurnsFromRoll roll)).length := List.length_filterMap_le _ _
      _ = maxTurnsFromRoll roll := List.length_range _
      _ ≤ 5 := maxTurnsFromRoll_le_five roll h1
  · intro hsome
    have heq : runConversationTurns oracle initiator target (maxTurnsFromRoll roll)
        = (List.range (maxTurnsFromRoll roll)).map
            (successfulTurn oracle initiator target) := by
      apply filterMap_eq_map_of_forall
      intro x hx
      obtain ⟨r, hr⟩ := Option.isSome_iff_exists.mp (hsome x (List.mem_range.mp hx))
      simp [hr, successfulTurn]
    constructor
    · show 3 ≤ (runConversationTurns oracle initiator target (maxTurnsFromRoll roll)).length
      rw [heq, List.length_map, List.length_range]
      exact maxTurnsFromRoll_ge_three roll h0
    · intro j hj
      have hj' : j < maxTurnsFromRoll roll := by
        rw [heq, List.length_map, List.length_range] at hj
        exact hj
      have hjr : j < (List.range (maxTurnsFromRoll roll)).length := by
        rw [List.length_range]; exact hj'
      show ((runConversationTurns oracle initiator target (maxTurnsFromRoll roll)).getD j
          default).speaker_id = if j % 2 = 0 then initiator.id else target.id
      rw [heq, getD_map_of_lt _ _ j hjr]
      have hidx : (List.range (maxTurnsFromRoll roll)).getD j default = j := by
        rw [List.getD_eq_getElem _ _ hjr, List.getElem_range]
      rw [hidx]
      by_cases hpar : j % 2 = 0 <;>
        simp [successfulTurn, mkConversationTurn, hpar]
  · intro b hb
    exact setActivity_pair_activity hb

/-- Witness for C5's amended theorem: with an always-succeeding oracle and a
0 roll the conversation produces at least 3 turns. -/
theorem conversation_amended_witness :
    3 ≤ (startConversation okOracle 0 [baseAgent, partnerAgent] "a" "b").2.length := by
  have h := conversation_amended okOracle 0 [baseAgent, partnerAgent] "a" "b" baseAgent
    partnerAgent rfl rfl (by decide) rfl (by norm_num) (by norm_num)
  exact (h.2.1 (fun i _ => rfl)).1

end Simcity
